import Mathlib

/-!
Shallow embedding of the object-model facade in
`src/azure/cosmos/client.py` (namespace `AzureCosmos`) and
`src/prototype/client.py` (namespace `Prototype`).

Python dictionaries are modelled as association lists over a small JSON-like
`Value` type; Python exceptions become `Except PyErr`; the external transport
context (`_CosmosClient`) becomes a structure of response functions, one per
verb the facade calls.  The transport's mutable `last_response_headers` side
channel is modelled by pairing each item-read response with the headers it
records.
-/

/-- A JSON-ish value stored in a Python dict: `None`, an int, a string, or a
nested object. -/
inductive Value where
  | null : Value
  | int : Int → Value
  | str : String → Value
  | obj : List (String × Value) → Value

/-- A Python dict with string keys, in insertion order. -/
def Props : Type := List (String × Value)

/-- HTTP response headers (string-valued dict). -/
def Headers : Type := List (String × String)

/-- `d[k]` lookup returning the first binding, `none` when the key is absent. -/
def dictGet (d : Props) (k : String) : Option Value :=
  match d.find? (fun kv => kv.1 = k) with
  | some kv => some kv.2
  | none => none

/-- `headers.get(k)`: lookup in a string-valued dict. -/
def headersGet (h : Headers) (k : String) : Option String :=
  match h.find? (fun kv => kv.1 = k) with
  | some kv => some kv.2
  | none => none

/-- The failure signal of the transport: an HTTP-style status code
(`azure...errors.HTTPFailure`). -/
structure HTTPFailure where
  status_code : Nat
deriving DecidableEq

/-- Python exceptions observable from the embedded code. -/
inductive PyErr where
  | http : HTTPFailure → PyErr
  | typeError : PyErr
  | valueError : PyErr
  | keyError : String → PyErr
deriving DecidableEq

/-- Lift a transport outcome into the facade's exception type. -/
def liftHTTP {α : Type} : Except HTTPFailure α → Except PyErr α
  | .ok a => .ok a
  | .error e => .error (.http e)

/-- `d["id"]` where a string is expected: `KeyError` if absent (document and
container ids are strings on the wire). -/
def dictGetStr (d : Props) (k : String) : Except PyErr String :=
  match dictGet d k with
  | some (Value.str s) => .ok s
  | some _ => .error .typeError
  | none => .error (.keyError k)

/-- Python's `int(x)` on the values that can reach it here: ints pass through,
strings are parsed (`ValueError` when unparsable), `None` and objects raise
`TypeError`. -/
def pyInt : Value → Except PyErr Int
  | .int n => .ok n
  | .str s =>
      match s.toInt? with
      | some n => .ok n
      | none => .error .valueError
  | .null => .error .typeError
  | .obj _ => .error .typeError

/-- `value is not None` (and, on this value domain, also `value != None`):
the filter applied when building the container-update payload. -/
def Value.isNull : Value → Bool
  | .null => true
  | _ => false

/-- The transport context (`_CosmosClient`): one response function per verb the
facade calls.  Arguments are the links/payloads the facade passes; item reads
also return the headers the transport records as `last_response_headers`. -/
structure ClientContext where
  CreateDatabase : String → Except HTTPFailure Props
  ReadDatabase : String → Except HTTPFailure Props
  DeleteDatabase : String → Except HTTPFailure Unit
  ReadContainer : String → Except HTTPFailure Props
  ReadContainers : String → Except HTTPFailure (List Props)
  ReplaceContainer : String → Props → Except HTTPFailure Props
  ReadItem : String → Except HTTPFailure (Props × Headers)
  ReadItems : String → Props → Except HTTPFailure (List Props × Headers)
  ReplaceItem : String → Props → Except HTTPFailure (Props × Headers)
  DeleteItem : String → Except HTTPFailure Unit

namespace AzureCosmos

/-- A `Database` handle (`Database.__init__`): stores the caller-supplied id
and the derived link `f"/dbs/{self.id}"`. -/
structure Database where
  id : String
  database_link : String

/-- `Database.__init__(client_context, id)`. -/
def databaseInit (id : String) : Database :=
  { id := id, database_link := "/dbs/" ++ id }

/-- `DatabaseResponse`: a `Database` plus the cached `properties` dict. -/
structure DatabaseResponse where
  id : String
  database_link : String
  properties : Props

/-- `DatabaseResponse.__init__(client_context, id, properties)`: delegates to
`Database.__init__` and stores `properties`. -/
def databaseResponseInit (id : String) (properties : Props) : DatabaseResponse :=
  { id := id, database_link := (databaseInit id).database_link, properties := properties }

/-- A `Container` handle: id, derived `collection_link`, and the mutable
`session_token` (initially `None`). -/
structure Container where
  id : String
  collection_link : String
  session_token : Option String

/-- The duck-typed `database` argument of `Container.__init__`: either a
`Database` handle or a raw id string. -/
inductive DatabaseOrId where
  | handle : Database → DatabaseOrId
  | id : String → DatabaseOrId

/-- `Container.__init__(client_context, database, id)`:
`database_link = getattr(database, "database_link", f"dbs/{database}")`,
`collection_link = f"{database_link}/colls/{self.id}"`, `session_token = None`. -/
def containerInit (database : DatabaseOrId) (id : String) : Container :=
  let database_link :=
    match database with
    | .handle db => db.database_link
    | .id s => "dbs/" ++ s
  { id := id, collection_link := database_link ++ "/colls/" ++ id,
    session_token := none }

/-- An `Item`: the document dict plus the response headers that produced it. -/
structure Item where
  response_headers : Headers
  data : Props

/-- The duck-typed argument of `Container._document_link`: a bare link string
or an `Item`. -/
inductive ItemOrLink where
  | link : String → ItemOrLink
  | item : Item → ItemOrLink

/-- `Container._document_link(item_or_link)` (azure variant): a string is
returned as-is (`isinstance(item_or_link, str)`); otherwise the item's
`"_self"` entry is returned. -/
def Container.documentLink : ItemOrLink → Except PyErr String
  | .link s => .ok s
  | .item it => dictGetStr it.data "_self"

/-- The duck-typed `container` argument (handle or raw id string) of the
`Database` container operations. -/
inductive ContainerOrId where
  | handle : Container → ContainerOrId
  | id : String → ContainerOrId

/-- `getattr(container, "id", container)` in `set_container_properties`. -/
def containerIdOf : ContainerOrId → String
  | .handle c => c.id
  | .id s => s

/-- `Client.get_database(id)`: `ReadDatabase(database_link=f"dbs/{id}")`, then
wrap the properties as `DatabaseResponse(client_context, id, properties)`. -/
def Client.get_database (ctx : ClientContext) (id : String) :
    Except PyErr DatabaseResponse :=
  match ctx.ReadDatabase ("dbs/" ++ id) with
  | .error e => .error (.http e)
  | .ok properties => .ok (databaseResponseInit id properties)

/-- `Client.create_database(id, fail_if_exists)`: try the remote create and
wrap the result; on `HTTPFailure` re-raise only when `fail_if_exists` and the
status code is 409, otherwise fall through to `get_database(id)`. -/
def Client.create_database (ctx : ClientContext) (id : String)
    (fail_if_exists : Bool) : Except PyErr DatabaseResponse :=
  match ctx.CreateDatabase id with
  | .ok result =>
      match dictGetStr result "id" with
      | .error e => .error e
      | .ok rid => .ok (databaseResponseInit rid result)
  | .error e =>
      if fail_if_exists && e.status_code == 409 then .error (.http e)
      else Client.get_database ctx id

/-- `Client.delete_database(id)`: a single
`DeleteDatabase(database_link=f"dbs/{id}")` call, nothing else. -/
def Client.delete_database (ctx : ClientContext) (id : String) :
    Except PyErr Unit :=
  liftHTTP (ctx.DeleteDatabase ("dbs/" ++ id))

/-- The `parameters` dict built inside `Database.set_container_properties`:
the dict literal is evaluated first (so `int(default_ttl)` runs even when the
entry is later dropped), then entries whose value `is not None` are kept, in
insertion order. -/
def setContainerParameters (container_id : String)
    (partition_key indexing_policy default_ttl conflict_resolution_policy : Value) :
    Except PyErr Props :=
  match pyInt default_ttl with
  | .error e => .error e
  | .ok ttl =>
      .ok (List.filter (fun kv => !(Value.isNull kv.2))
        [("id", Value.str container_id),
         ("partitionKey", partition_key),
         ("indexingPolicy", indexing_policy),
         ("defaultTtl", Value.int ttl),
         ("conflictResolutionPolicy", conflict_resolution_policy)])

/-- `Database.set_container_properties(container, *, ...)`: build the partial
payload, derive `collection_link = f"{self.database_link}/colls/{container_id}"`
and send `ReplaceContainer`. -/
def Database.set_container_properties (ctx : ClientContext) (db : Database)
    (container : ContainerOrId)
    (partition_key indexing_policy default_ttl conflict_resolution_policy : Value) :
    Except PyErr Unit :=
  let container_id := containerIdOf container
  match setContainerParameters container_id
      partition_key indexing_policy default_ttl conflict_resolution_policy with
  | .error e => .error e
  | .ok parameters =>
      match ctx.ReplaceContainer (db.database_link ++ "/colls/" ++ container_id)
          parameters with
      | .error e => .error (.http e)
      | .ok _ => .ok ()

/-- The `collection_link` derived inside `Database.get_container_properties`:
`getattr(container, "collection_link", f"{self.database_link}/cols/{container}")`
(the source spells the path segment `cols`, with a single l). -/
def Database.containerPropsLink (db : Database) : ContainerOrId → String
  | .handle c => c.collection_link
  | .id s => db.database_link ++ "/cols/" ++ s

/-- `Database.get_container_properties(container)`: `ReadContainer` on the
link above, returning the raw properties. -/
def Database.get_container_properties (ctx : ClientContext) (db : Database)
    (container : ContainerOrId) : Except PyErr Props :=
  liftHTTP (ctx.ReadContainer (Database.containerPropsLink db container))

/-- `Container.get_item(id)`: read `f"{self.collection_link}/docs/{id}"`, then
set `self.session_token = headers.get("x-ms-session-token", self.session_token)`
and return the wrapped item.  The updated container models the mutated `self`. -/
def Container.get_item (ctx : ClientContext) (c : Container) (id : String) :
    Except PyErr (Container × Item) :=
  let doc_link := c.collection_link ++ "/docs/" ++ id
  match ctx.ReadItem doc_link with
  | .error e => .error (.http e)
  | .ok (result, headers) =>
      let token :=
        match headersGet headers "x-ms-session-token" with
        | some v => some v
        | none => c.session_token
      .ok ({ c with session_token := token },
           { response_headers := headers, data := result })

/-- `Container.list_items(options)`: read the collection feed, wrap each
document with the recorded headers.  `self` is not mutated (the returned
container is the input one). -/
def Container.list_items (ctx : ClientContext) (c : Container)
    (options : Props) : Except PyErr (Container × List Item) :=
  match ctx.ReadItems c.collection_link options with
  | .error e => .error (.http e)
  | .ok (items, headers) =>
      .ok (c, items.map (fun d => { response_headers := headers, data := d }))

/-- `Container.replace_item(item, body)`: resolve the link via
`_document_link` and `ReplaceItem` on it. -/
def Container.replace_item (ctx : ClientContext) (item : ItemOrLink)
    (body : Props) : Except PyErr Item :=
  match Container.documentLink item with
  | .error e => .error e
  | .ok item_link =>
      match ctx.ReplaceItem item_link body with
      | .error e => .error (.http e)
      | .ok (data, headers) => .ok { response_headers := headers, data := data }

/-- `Container.delete_item(item)`: resolve the link via `_document_link` and
`DeleteItem` on it. -/
def Container.delete_item (ctx : ClientContext) (item : ItemOrLink) :
    Except PyErr Unit :=
  match Container.documentLink item with
  | .error e => .error e
  | .ok document_link => liftHTTP (ctx.DeleteItem document_link)

end AzureCosmos

namespace Prototype

/-- A prototype `Database` handle (`Database.__init__`): the caller-supplied
id and the derived link `f"/dbs/{self.id}"`. -/
structure Database where
  id : String
  database_link : String

/-- `Database.__init__(client, id)`. -/
def databaseInit (id : String) : Database :=
  { id := id, database_link := "/dbs/" ++ id }

/-- A prototype `Container` handle (`Container.__init__`): id plus
`collection_link = f"{database.database_link}/colls/{self.id}"`. -/
structure Container where
  id : String
  collection_link : String

/-- `Container.__init__(database, id)`. -/
def containerInit (database : Database) (id : String) : Container :=
  { id := id, collection_link := database.database_link ++ "/colls/" ++ id }

/-- `Client.get_database(id)` (prototype variant): constructs
`Database(client=self, id=id)` locally, with no remote call. -/
def Client.get_database (id : String) : Database :=
  databaseInit id

/-- `Client.create_database(id, fail_if_exists)` (prototype variant): remote
create wrapped as `Database(self, id=result["id"])`; on `HTTPFailure` re-raise
only when `fail_if_exists` and status 409, else fall through to
`get_database(id)` (which always succeeds locally). -/
def Client.create_database (ctx : ClientContext) (id : String)
    (fail_if_exists : Bool) : Except PyErr Database :=
  match ctx.CreateDatabase id with
  | .ok result =>
      match dictGetStr result "id" with
      | .error e => .error e
      | .ok rid => .ok (databaseInit rid)
  | .error e =>
      if fail_if_exists && e.status_code == 409 then .error (.http e)
      else .ok (Client.get_database id)

/-- `Client.delete_database(id)` (prototype variant):
`DeleteDatabase(database_link="dbs/" + id)`, nothing else. -/
def Client.delete_database (ctx : ClientContext) (id : String) :
    Except PyErr Unit :=
  liftHTTP (ctx.DeleteDatabase ("dbs/" ++ id))

/-- `ContainersManagementMixin.list_containers(query=None)`: the `query`
argument is accepted but unused; the body always lists
`ReadContainers(database_link=...)` and wraps each entry as
`Container(database, container["id"])`. -/
def list_containers (ctx : ClientContext) (db : Database) :
    Except PyErr (List Container) :=
  match ctx.ReadContainers db.database_link with
  | .error e => .error (.http e)
  | .ok containers =>
      containers.mapM (fun d =>
        match dictGetStr d "id" with
        | .error e => .error e
        | .ok cid => .ok (containerInit db cid))

/-- `ContainersManagementMixin.get_container(id)`: passes a parameterized
`SELECT * FROM root r WHERE r.id = @container` query to `list_containers`
(which ignores it), then `next(containers)` — `StopIteration` on an empty
sequence is caught and re-raised as `ValueError`. -/
def get_container (ctx : ClientContext) (db : Database) (_id : String) :
    Except PyErr Container :=
  match list_containers ctx db with
  | .error e => .error e
  | .ok [] => .error .valueError
  | .ok (c :: _) => .ok c

/-- `Container._document_link(item_or_link)` (prototype variant): the guard is
`type(item_or_link) is "str"`, comparing a type object against the string
`"str"`, which is never true; every argument therefore reaches
`item_or_link["_self"]`.  Indexing a Python `str` with `"_self"` raises
`TypeError`; an item dict yields its `"_self"` entry. -/
def Container.documentLink : AzureCosmos.ItemOrLink → Except PyErr String
  | .link _ => .error .typeError
  | .item it => dictGetStr it.data "_self"

/-- The `parameters` dict built inside the prototype
`Container.set_container_properties`: `{"id": id or self.id, ...}` with the
same eagerly-evaluated `int(default_ttl)` entry, filtered by `value != None`
(which agrees with `is not None` on this value domain). -/
def setContainerParameters (self_id : String) (id : Option String)
    (partition_key indexing_policy default_ttl conflict_resolution_policy : Value) :
    Except PyErr Props :=
  let effective_id :=
    match id with
    | some s => if s = "" then self_id else s
    | none => self_id
  match pyInt default_ttl with
  | .error e => .error e
  | .ok ttl =>
      .ok (List.filter (fun kv => !(Value.isNull kv.2))
        [("id", Value.str effective_id),
         ("partitionKey", partition_key),
         ("indexingPolicy", indexing_policy),
         ("defaultTtl", Value.int ttl),
         ("conflictResolutionPolicy", conflict_resolution_policy)])

end Prototype

/-! ## Concrete transport contexts used by witnesses and counterexamples -/

/-- A transport whose create fails with status 500 and whose other
operations succeed with empty payloads. -/
def baseCtx : ClientContext where
  CreateDatabase := fun _ => .error { status_code := 500 }
  ReadDatabase := fun _ => .ok []
  DeleteDatabase := fun _ => .ok ()
  ReadContainer := fun _ => .ok []
  ReadContainers := fun _ => .ok []
  ReplaceContainer := fun _ _ => .ok []
  ReadItem := fun _ => .ok ([], [])
  ReadItems := fun _ _ => .ok ([], [])
  ReplaceItem := fun _ _ => .ok ([], [])
  DeleteItem := fun _ => .ok ()

/-- A transport where the database already exists: create conflicts with 409
and the read returns the existing database's properties. -/
def ctx409 : ClientContext :=
  { baseCtx with
    CreateDatabase := fun _ => .error { status_code := 409 },
    ReadDatabase := fun _ => .ok [("id", Value.str "existing")] }

/-- A transport whose delete fails with 404. -/
def ctx404 : ClientContext :=
  { baseCtx with DeleteDatabase := fun _ => .error { status_code := 404 } }

/-- A transport where create and read both succeed for a database "d". -/
def ctxOk : ClientContext :=
  { baseCtx with
    CreateDatabase := fun _ => .ok [("id", Value.str "d")],
    ReadDatabase := fun _ => .ok [("id", Value.str "d")] }

/-- A transport whose item feed carries a session token in its response
headers. -/
def ctxTokenFeed : ClientContext :=
  { baseCtx with
    ReadItems := fun _ _ =>
      .ok ([[("id", Value.str "i")]], [("x-ms-session-token", "tok-42")]) }

/-- A transport whose single-item read carries a session token. -/
def ctxTokenRead : ClientContext :=
  { baseCtx with
    ReadItem := fun _ =>
      .ok ([("id", Value.str "i")], [("x-ms-session-token", "tok-42")]) }

/-- A transport whose single-item read returns headers without any
session-token key. -/
def ctxNoTokenRead : ClientContext :=
  { baseCtx with
    ReadItem := fun _ => .ok ([("id", Value.str "i")], [("etag", "abc")]) }

/-- A transport whose container listing holds one container, with id
"other". -/
def ctxOneContainer : ClientContext :=
  { baseCtx with ReadContainers := fun _ => .ok [[("id", Value.str "other")]] }

/-- A container handle for collection "c" of database "d", as the azure
variant constructs it (fresh `session_token = None`). -/
def contC : AzureCosmos.Container :=
  AzureCosmos.containerInit (.handle (AzureCosmos.databaseInit "d")) "c"

/-- A container whose session token was previously set to "old". -/
def contOld : AzureCosmos.Container :=
  { contC with session_token := some "old" }

/-- An item carrying an embedded self-link, as returned by the service. -/
def selfItem : AzureCosmos.Item :=
  { response_headers := [],
    data := [("id", Value.str "x"), ("_self", Value.str "dbs/d/colls/c/docs/x")] }

/-! ## Claim theorems -/

/-- C1: when a database with the given id already exists (the remote create
fails with status 409), `create_database(id, fail_if_exists=True)` raises the
conflict failure, and `create_database(id, fail_if_exists=False)` does not
raise: it returns the result of `get_database(id)`, a handle to the existing
database.  Both client variants behave this way. -/
theorem C1_create_database_conflict (ctx : ClientContext) (id : String)
    (e : HTTPFailure) (props : Props)
    (hcreate : ctx.CreateDatabase id = .error e) (h409 : e.status_code = 409) :
    AzureCosmos.Client.create_database ctx id true = .error (.http e)
    ∧ AzureCosmos.Client.create_database ctx id false
        = AzureCosmos.Client.get_database ctx id
    ∧ (ctx.ReadDatabase ("dbs/" ++ id) = .ok props →
        AzureCosmos.Client.create_database ctx id false
          = .ok (AzureCosmos.databaseResponseInit id props))
    ∧ Prototype.Client.create_database ctx id true = .error (.http e)
    ∧ Prototype.Client.create_database ctx id false
        = .ok (Prototype.Client.get_database id) := by
  refine ⟨?_, ?_, ?_, ?_, ?_⟩
  · simp [AzureCosmos.Client.create_database, hcreate, h409]
  · simp [AzureCosmos.Client.create_database, hcreate]
  · intro hread
    simp [AzureCosmos.Client.create_database, AzureCosmos.Client.get_database,
      hcreate, hread]
  · simp [Prototype.Client.create_database, hcreate, h409]
  · simp [Prototype.Client.create_database, hcreate]

/-- C1 witness: with a transport conflicting at 409 on "existing", the strict
create raises the 409 failure and the default create returns the fetched
existing database. -/
theorem C1_create_database_conflict_witness :
    AzureCosmos.Client.create_database ctx409 "existing" true
      = .error (.http { status_code := 409 })
    ∧ AzureCosmos.Client.create_database ctx409 "existing" false
        = .ok (AzureCosmos.databaseResponseInit "existing"
            [("id", Value.str "existing")]) :=
  have h := C1_create_database_conflict ctx409 "existing" { status_code := 409 }
    [("id", Value.str "existing")] rfl rfl
  ⟨h.1, h.2.2.1 rfl⟩

/-- C6: `delete_database(id)` is a bare transport call: any failure on
`DeleteDatabase("dbs/" + id)` — including a 404 for a nonexistent id —
is propagated unchanged, with no status-code inspection, retry or recovery,
in both client variants. -/
theorem C6_delete_database_propagates (ctx : ClientContext) (id : String)
    (e : HTTPFailure) (h : ctx.DeleteDatabase ("dbs/" ++ id) = .error e) :
    AzureCosmos.Client.delete_database ctx id = .error (.http e)
    ∧ Prototype.Client.delete_database ctx id = .error (.http e) := by
  constructor <;>
    simp [AzureCosmos.Client.delete_database, Prototype.Client.delete_database,
      liftHTTP, h]

/-- C6 witness: a transport failing deletes with 404 makes
`delete_database("gone")` fail with exactly that 404. -/
theorem C6_delete_database_propagates_witness :
    AzureCosmos.Client.delete_database ctx404 "gone"
      = .error (.http { status_code := 404 }) :=
  (C6_delete_database_propagates ctx404 "gone" { status_code := 404 } rfl).1

/-- C7: after a successful `create_database(id)`, `get_database(id)` returns
a database handle whose `id` attribute is the id that was passed in — in the
azure variant the handle wraps the freshly read properties, and in the
prototype variant `get_database` constructs the handle from the id directly. -/
theorem C7_create_then_get_matching_id (ctx : ClientContext) (id : String)
    (d : AzureCosmos.DatabaseResponse) (props : Props)
    (_hcreate : AzureCosmos.Client.create_database ctx id false = .ok d)
    (hread : ctx.ReadDatabase ("dbs/" ++ id) = .ok props) :
    AzureCosmos.Client.get_database ctx id
      = .ok (AzureCosmos.databaseResponseInit id props)
    ∧ (AzureCosmos.databaseResponseInit id props).id = id
    ∧ (Prototype.Client.get_database id).id = id := by
  refine ⟨?_, rfl, rfl⟩
  simp [AzureCosmos.Client.get_database, hread]

/-- C7 witness: with a transport where create and read succeed for "d",
`get_database("d")` returns a handle with id "d". -/
theorem C7_create_then_get_matching_id_witness :
    AzureCosmos.Client.get_database ctxOk "d"
      = .ok (AzureCosmos.databaseResponseInit "d" [("id", Value.str "d")])
    ∧ (AzureCosmos.databaseResponseInit "d" [("id", Value.str "d")]).id = "d"
    ∧ (Prototype.Client.get_database "d").id = "d" :=
  C7_create_then_get_matching_id ctxOk "d"
    (AzureCosmos.databaseResponseInit "d" [("id", Value.str "d")])
    [("id", Value.str "d")] rfl rfl

/-- C8: when the remote create fails, the only (failure, flag) combination
that re-raises out of `create_database` is status 409 with
`fail_if_exists=True`; every other failure — any status with the default
flag, and any non-409 status even with `fail_if_exists=True` — is swallowed
and the call falls through to `get_database(id)`. -/
theorem C8_create_database_error_policy (ctx : ClientContext) (id : String)
    (e : HTTPFailure) (fie : Bool) (hcreate : ctx.CreateDatabase id = .error e) :
    AzureCosmos.Client.create_database ctx id fie
      = if fie && e.status_code == 409 then .error (.http e)
        else AzureCosmos.Client.get_database ctx id := by
  simp only [AzureCosmos.Client.create_database, hcreate]

/-- C8 witness: a 500 failure with `fail_if_exists=True` is swallowed and the
call falls through to `get_database`. -/
theorem C8_create_database_error_policy_witness :
    AzureCosmos.Client.create_database baseCtx "d" true
      = if true && (500 == 409) then
          .error (.http { status_code := 500 })
        else AzureCosmos.Client.get_database baseCtx "d" :=
  C8_create_database_error_policy baseCtx "d" { status_code := 500 } true rfl

/-- C2: `set_container_properties(container, default_ttl=3600)` does build a
payload holding exactly `id` and `defaultTtl` (omitted fields are absent, not
null) — but the dict literal evaluates `int(default_ttl)` before the
None-filter runs, so any call that omits `default_ttl` (leaving it `None`)
raises `TypeError` instead of producing a payload without `defaultTtl`; the
prototype variant shares both behaviours. -/
theorem C2_set_container_properties_payload :
    AzureCosmos.setContainerParameters "c" Value.null Value.null
        (Value.int 3600) Value.null
      = .ok [("id", Value.str "c"), ("defaultTtl", Value.int 3600)]
    ∧ AzureCosmos.Database.set_container_properties baseCtx
        (AzureCosmos.databaseInit "d") (.id "c") Value.null Value.null
        (Value.int 3600) Value.null = .ok ()
    ∧ AzureCosmos.setContainerParameters "c"
        (Value.obj [("paths", Value.str "/pk")]) Value.null Value.null Value.null
      = .error .typeError
    ∧ AzureCosmos.Database.set_container_properties baseCtx
        (AzureCosmos.databaseInit "d") (.id "c")
        (Value.obj [("paths", Value.str "/pk")]) Value.null Value.null Value.null
      = .error .typeError
    ∧ Prototype.setContainerParameters "c" none Value.null Value.null
        (Value.int 3600) Value.null
      = .ok [("id", Value.str "c"), ("defaultTtl", Value.int 3600)]
    ∧ Prototype.setContainerParameters "c" none
        (Value.obj [("paths", Value.str "/pk")]) Value.null Value.null Value.null
      = .error .typeError := by
  refine ⟨rfl, rfl, rfl, rfl, rfl, rfl⟩

/-- C3 counterexample: a `list_items` call whose response headers carry the
session token "tok-42" leaves the container's `session_token` at its previous
value (`None` here), refuting the claim that `list_items` updates the stored
session token to the value in the response headers of that call. -/
theorem C3_list_items_token_counterexample :
    AzureCosmos.Container.list_items ctxTokenFeed contC []
      = .ok (contC, [{ response_headers := [("x-ms-session-token", "tok-42")],
                       data := [("id", Value.str "i")] }])
    ∧ contC.session_token = none
    ∧ contC.session_token ≠ some "tok-42" := by
  refine ⟨rfl, rfl, ?_⟩
  simp [contC, AzureCosmos.containerInit]

/-- C3 (amended): `get_item` updates the container's `session_token` to the
session-token value present in that call's response headers; `list_items`
never touches the container's `session_token` — any successful `list_items`
call returns the container unchanged. -/
theorem C3_session_token_amended (ctx : ClientContext)
    (c : AzureCosmos.Container) (id : String) (result : Props)
    (headers : Headers) (v : String)
    (hread : ctx.ReadItem (c.collection_link ++ "/docs/" ++ id)
      = .ok (result, headers))
    (htok : headersGet headers "x-ms-session-token" = some v) :
    AzureCosmos.Container.get_item ctx c id
      = .ok ({ c with session_token := some v },
             { response_headers := headers, data := result })
    ∧ ∀ (ctx2 : ClientContext) (c2 : AzureCosmos.Container) (options : Props)
        (r : AzureCosmos.Container × List AzureCosmos.Item),
        AzureCosmos.Container.list_items ctx2 c2 options = .ok r → r.1 = c2 := by
  constructor
  · simp [AzureCosmos.Container.get_item, hread, htok]
  · intro ctx2 c2 options r h
    unfold AzureCosmos.Container.list_items at h
    cases hx : ctx2.ReadItems c2.collection_link options with
    | error e => rw [hx] at h; simp at h
    | ok p =>
      obtain ⟨items, hs⟩ := p
      rw [hx] at h
      cases h
      rfl

/-- C3 witness: a `get_item` whose response headers carry "tok-42" sets the
container's session token to "tok-42". -/
theorem C3_session_token_amended_witness :
    AzureCosmos.Container.get_item ctxTokenRead contC "x"
      = .ok ({ contC with session_token := some "tok-42" },
             { response_headers := [("x-ms-session-token", "tok-42")],
               data := [("id", Value.str "i")] }) :=
  (C3_session_token_amended ctxTokenRead contC "x" [("id", Value.str "i")]
    [("x-ms-session-token", "tok-42")] "tok-42" rfl rfl).1

/-- C4: the azure `_document_link` returns a bare link string as-is and, for
an Item, the embedded `_self` link (so `replace_item`/`delete_item` address
exactly that link for any transport); the prototype variant's guard
`type(item_or_link) is "str"` never succeeds, so a bare link string is
indexed with `"_self"` and raises `TypeError` instead of being returned. -/
theorem C4_document_link (ctx : ClientContext) :
    AzureCosmos.Container.documentLink (.link "dbs/d/colls/c/docs/x")
      = .ok "dbs/d/colls/c/docs/x"
    ∧ AzureCosmos.Container.documentLink (.item selfItem)
      = .ok "dbs/d/colls/c/docs/x"
    ∧ AzureCosmos.Container.delete_item ctx (.item selfItem)
      = liftHTTP (ctx.DeleteItem "dbs/d/colls/c/docs/x")
    ∧ AzureCosmos.Container.replace_item ctx (.link "dbs/d/colls/c/docs/x") []
      = (match ctx.ReplaceItem "dbs/d/colls/c/docs/x" [] with
         | .error e => .error (.http e)
         | .ok (data, headers) => .ok { response_headers := headers, data := data })
    ∧ Prototype.Container.documentLink (.link "dbs/d/colls/c/docs/x")
      = .error .typeError
    ∧ Prototype.Container.documentLink (.item selfItem)
      = .ok "dbs/d/colls/c/docs/x" := by
  refine ⟨rfl, rfl, rfl, rfl, rfl, rfl⟩

/-- C5: the stored links are derived by interpolation — a database's link is
`/dbs/id` and a container's stored link is `database_link/colls/id` — but
`get_container_properties` derives the container link with the path segment
`cols` (single l), so for database "d" and container id "c" it addresses
`/dbs/d/cols/c`, not the `/dbs/d/colls/c` the claimed scheme produces. -/
theorem C5_link_derivations (ctx : ClientContext) :
    (AzureCosmos.databaseInit "d").database_link = "/dbs/d"
    ∧ (AzureCosmos.containerInit (.handle (AzureCosmos.databaseInit "d"))
        "c").collection_link = "/dbs/d/colls/c"
    ∧ AzureCosmos.Database.containerPropsLink (AzureCosmos.databaseInit "d")
        (.id "c") = "/dbs/d/cols/c"
    ∧ AzureCosmos.Database.get_container_properties ctx
        (AzureCosmos.databaseInit "d") (.id "c")
      = liftHTTP (ctx.ReadContainer "/dbs/d/cols/c")
    ∧ "/dbs/d/cols/c" ≠ "/dbs/d/colls/c" := by
  refine ⟨rfl, rfl, rfl, rfl, ?_⟩
  decide

/-- C9: a `get_item` call whose response headers do not contain the
`x-ms-session-token` key leaves the container's `session_token` unchanged
(`headers.get` falls back to the previous value): the returned container is
the input container itself. -/
theorem C9_get_item_no_token_header (ctx : ClientContext)
    (c : AzureCosmos.Container) (id : String) (result : Props)
    (headers : Headers)
    (hread : ctx.ReadItem (c.collection_link ++ "/docs/" ++ id)
      = .ok (result, headers))
    (hno : headersGet headers "x-ms-session-token" = none) :
    AzureCosmos.Container.get_item ctx c id
      = .ok (c, { response_headers := headers, data := result }) := by
  simp [AzureCosmos.Container.get_item, hread, hno]

/-- C9 witness: a token-free response leaves a previously set session token
("old") in place. -/
theorem C9_get_item_no_token_header_witness :
    AzureCosmos.Container.get_item ctxNoTokenRead contOld "x"
      = .ok (contOld, { response_headers := [("etag", "abc")],
                        data := [("id", Value.str "i")] }) :=
  C9_get_item_no_token_header ctxNoTokenRead contOld "x"
    [("id", Value.str "i")] [("etag", "abc")] rfl rfl

/-- C10: the prototype `get_container(id)` does raise `ValueError` (not an
HTTP failure) when the sequence it consumes is empty — but that sequence is
the full container listing, because `list_containers` ignores its `query`
argument; with one container of id "other" present, `get_container("x")`
returns the handle for "other" instead of raising `ValueError` as the
claimed query-for-that-id semantics would. -/
theorem C10_get_container_ignores_query :
    Prototype.get_container baseCtx (Prototype.databaseInit "d") "x"
      = .error .valueError
    ∧ Prototype.get_container ctxOneContainer (Prototype.databaseInit "d") "x"
      = .ok (Prototype.containerInit (Prototype.databaseInit "d") "other")
    ∧ (Prototype.containerInit (Prototype.databaseInit "d") "other").id ≠ "x" := by
  refine ⟨rfl, rfl, ?_⟩
  decide
